import Mathlib

/-!
Verification development for the gopaddock quantitative pipeline.

Shallow embedding of the core components:
* `services/scoring_config.py` — named threshold constants;
* `services/scoring_v2.py` — the deterministic scoring engine `score_v2`;
* `services/race_match_v2.py` — the rule-based match model `compute_match_M`;
* `services/race_prob_model.py` — the Monte Carlo simulator `simulate_finish_probs`;
* `services/gait_features_v2.py` — the error contract of `extract_gait_features`.

Python floats are modelled as exact rationals (`ℚ`); the two calibrated
probability outputs, which go through `math.exp`, are modelled over `ℝ`.
Python dictionaries read with `.get(key, default)` are modelled as association
lists read with `List.lookup`; `None`-able arguments are modelled as `Option`.
Each local variable of `score_v2` / `compute_match_M` is translated as one
named definition over a structure bundling the function's arguments, so that
every intermediate quantity of the source can be referred to by name; the
top-level functions assemble exactly the dictionaries the source returns.
-/

namespace GoPaddock

/-! ## scoring_config.py -/

def P0 : ℚ := 1.6
def P1 : ℚ := 2.4
def S0 : ℚ := 3.5
def S1 : ℚ := 6.0
def W0 : ℚ := 0.25
def W1 : ℚ := 0.60
def A0 : ℚ := 0.06
def A1 : ℚ := 0.18

def PR0 : ℚ := 2.1
def PR1 : ℚ := 2.7
def SR0 : ℚ := 3.8
def SR1 : ℚ := 5.5
def WR0 : ℚ := 0.30
def WR1 : ℚ := 0.70
def AR0 : ℚ := 0.08
def AR1 : ℚ := 0.22

def V0 : ℚ := 0.25
def V1 : ℚ := 0.70

def HB0 : ℚ := 1.35
def HIND_ASYM0 : ℚ := 0.14
def FORE_ASYM0 : ℚ := 0.14

def DELTA_MAX : ℚ := 18.0

def CAL_A0 : ℚ := -0.15
def CAL_A1 : ℚ := 1.00
def CAL_A2 : ℚ := 0.80

/-! ## scoring_v2.py — helpers -/

/-- `clamp` from scoring_v2.py: `lo if x < lo else hi if x > hi else x`
(`_clamp` in race_match_v2.py is the identical function). -/
def clamp (x lo hi : ℚ) : ℚ :=
  if x < lo then lo else if x > hi then hi else x

/-- `sat` from scoring_v2.py: linear saturation of `x` between band edges
`a` and `b`, clamped into `[0,1]` (returns `0` for a degenerate band). -/
def sat (x a b : ℚ) : ℚ :=
  if b ≤ a then 0 else clamp ((x - a) / (b - a)) 0 1

/-- `rev` from scoring_v2.py: `1 - u`, used for signals where lower raw
values indicate better gait quality. -/
def rev (u : ℚ) : ℚ := 1 - u

/-- `sigmoid` from scoring_v2.py (numerically stable logistic function,
modelled over the reals since the source uses `math.exp`). -/
noncomputable def sigmoid (x : ℝ) : ℝ :=
  if 0 ≤ x then 1 / (1 + Real.exp (-x)) else Real.exp x / (1 + Real.exp x)

/-- `PaddockAIState` from scoring_v2.py: six behavioural axes (0..100 each)
plus an AI confidence in 0..1. -/
structure PaddockAIState where
  T : ℚ
  X : ℚ
  SW : ℚ
  BR : ℚ
  CO : ℚ
  F : ℚ
  AiConf : ℚ

/-- The keyword arguments of `score_v2` (scoring_v2.py lines 40-55), bundled.
`roi_asym` is the `Dict[str, float] | None` argument as an association list. -/
structure ScoreArgs where
  q : ℚ
  pitch_hz : ℚ
  stride_index : ℚ
  wobble : ℚ
  asym : ℚ
  speed_proxy : Option ℚ
  roi_asym : Option (List (String × ℚ))
  headbob_ratio : Option ℚ
  ai_state : PaddockAIState
  ped_score : ℚ
  ped_stamina : ℚ
  ped_surfacefit : ℚ
  race_match_override : Option ℚ

/-- The result dictionary returned by `score_v2` (scoring_v2.py lines
135-147), flattened: `item_scores` P/S/W/A/V, `gait` G/G_adj/GaitTotal,
`risk` R_gait/R_adj/stress_risk/paddock_state, `match` M, `total`
Total/CI/C_vid, `prob` PlacePct/ContendPct, and the three clinical flags. -/
structure ScoreResult where
  P : ℚ
  S : ℚ
  W : ℚ
  A : ℚ
  V : ℚ
  G : ℚ
  G_adj : ℚ
  GaitTotal : ℚ
  R_gait : ℚ
  R_adj : ℚ
  stress_risk : ℚ
  paddock_state : ℚ
  M : ℚ
  Total : ℚ
  CI_lo : ℚ
  CI_hi : ℚ
  C_vid : ℚ
  PlacePct : ℝ
  ContendPct : ℝ
  headbob_suspect : Bool
  hind_asym_suspect : Bool
  fore_asym_suspect : Bool

/-! ## scoring_v2.py — the local variables of `score_v2` (lines 56-133),
one definition per source assignment, in source order. -/

namespace SV

/-- Line 57: `C_vid = 0.65 + 0.35 * clamp(q/100.0, 0.0, 1.0)`. -/
def C_vid (i : ScoreArgs) : ℚ := 0.65 + 0.35 * clamp (i.q / 100) 0 1

/-- Line 60: cadence item score (inverted saturation). -/
def P (i : ScoreArgs) : ℚ := 100 * rev (sat i.pitch_hz P0 P1)

/-- Line 61: stride item score. -/
def S (i : ScoreArgs) : ℚ := 100 * sat i.stride_index S0 S1

/-- Line 62: stability item score (inverted saturation of wobble). -/
def W (i : ScoreArgs) : ℚ := 100 * rev (sat i.wobble W0 W1)

/-- Line 63: symmetry item score (inverted saturation of asymmetry). -/
def A (i : ScoreArgs) : ℚ := 100 * rev (sat i.asym A0 A1)

/-- Line 64: speed item score; neutral 50 when no speed proxy is available. -/
def V (i : ScoreArgs) : ℚ :=
  match i.speed_proxy with
  | none => 50
  | some sp => 100 * sat sp V0 V1

/-- Line 67: composite gait score `G`. -/
def G (i : ScoreArgs) : ℚ :=
  0.18 * P i + 0.30 * S i + 0.22 * W i + 0.18 * A i + 0.12 * V i

/-- Line 70: cadence risk part. -/
def rp (i : ScoreArgs) : ℚ := 100 * sat i.pitch_hz PR0 PR1

/-- Line 71: wobble risk part. -/
def rw (i : ScoreArgs) : ℚ := 100 * sat i.wobble WR0 WR1

/-- Line 72: asymmetry risk part. -/
def ra (i : ScoreArgs) : ℚ := 100 * sat i.asym AR0 AR1

/-- Line 73: stride risk part (inverted). -/
def rs (i : ScoreArgs) : ℚ := 100 * rev (sat i.stride_index SR0 SR1)

/-- Line 76: `headbob_suspect = bool(headbob_ratio is not None and headbob_ratio > HB0)`. -/
def headbob_suspect (i : ScoreArgs) : Bool :=
  match i.headbob_ratio with
  | some hb => decide (hb > HB0)
  | none => false

/-- Lines 77-81: `hind_asym_suspect`; Python's `if roi_asym:` is true exactly
for a non-`None`, non-empty dict, and `roi_asym.get("hind", 0.0)` is the
lookup with default `0`. -/
def hind_asym_suspect (i : ScoreArgs) : Bool :=
  match i.roi_asym with
  | some (p :: ps) => decide ((((p :: ps).lookup "hind").getD 0) > HIND_ASYM0)
  | _ => false

/-- Lines 78-81: `fore_asym_suspect` from `roi_asym.get("head", 0.0)`. -/
def fore_asym_suspect (i : ScoreArgs) : Bool :=
  match i.roi_asym with
  | some (p :: ps) => decide ((((p :: ps).lookup "head").getD 0) > FORE_ASYM0)
  | _ => false

/-- Lines 83-88: composite gait risk, boosted by 10 for each raised clinical
flag, clamped into `[0,100]`. -/
def R_gait (i : ScoreArgs) : ℚ :=
  clamp ((0.28 * rp i + 0.28 * ra i + 0.22 * rw i + 0.12 * rs i)
    + (if headbob_suspect i then 10 else 0)
    + (if hind_asym_suspect i then 10 else 0)) 0 100

/-- Line 91: temperament axis scaled to `[0,1]`. -/
def t (i : ScoreArgs) : ℚ := clamp (i.ai_state.T / 100) 0 1

/-- Line 92: excitement axis scaled to `[0,1]`. -/
def x (i : ScoreArgs) : ℚ := clamp (i.ai_state.X / 100) 0 1

/-- Line 93: sweating axis scaled to `[0,1]`. -/
def sw (i : ScoreArgs) : ℚ := clamp (i.ai_state.SW / 100) 0 1

/-- Line 94: breathing axis scaled to `[0,1]`. -/
def br (i : ScoreArgs) : ℚ := clamp (i.ai_state.BR / 100) 0 1

/-- Line 95: cooperation axis scaled to `[0,1]`. -/
def co (i : ScoreArgs) : ℚ := clamp (i.ai_state.CO / 100) 0 1

/-- Line 96: fatigue axis scaled to `[0,1]`. -/
def f (i : ScoreArgs) : ℚ := clamp (i.ai_state.F / 100) 0 1

/-- Line 97: `K_ai = 0.50 + 0.50 * clamp(ai_state.AiConf, 0.0, 1.0)`. -/
def K_ai (i : ScoreArgs) : ℚ := 0.50 + 0.50 * clamp i.ai_state.AiConf 0 1

/-- Line 99: paddock-state composite on the 0..100 scale. -/
def PaddockState (i : ScoreArgs) : ℚ :=
  100 * clamp (0.30 * t i + 0.25 * f i + 0.30 * co i + 0.15 * (1 - x i)) 0 1

/-- Line 100: `PaddockState_`, regressed toward neutral 50 by `1 - K_ai`. -/
def PaddockState' (i : ScoreArgs) : ℚ :=
  (1 - K_ai i) * 50 + K_ai i * PaddockState i

/-- Line 102: stress blend of excitement/sweating/breathing, in `[0,1]`. -/
def Stress (i : ScoreArgs) : ℚ :=
  clamp (0.45 * x i + 0.35 * sw i + 0.20 * br i) 0 1

/-- Line 103: `StressRisk_ = 100.0 * K_ai * Stress`. -/
def StressRisk' (i : ScoreArgs) : ℚ := 100 * K_ai i * Stress i

/-- Line 105: gait score adjusted by paddock-state deviation from neutral. -/
def G_adj (i : ScoreArgs) : ℚ :=
  clamp (G i + 0.15 * (PaddockState' i - 50)) 0 100

/-- Line 106: risk adjusted upward by stress risk. -/
def R_adj (i : ScoreArgs) : ℚ :=
  clamp (R_gait i + 0.30 * StressRisk' i) 0 100

/-- Line 109: `GaitTotal_raw = clamp(G_adj - 0.35*R_adj, 0.0, 100.0)`. -/
def GaitTotal_raw (i : ScoreArgs) : ℚ :=
  clamp (G_adj i - 0.35 * R_adj i) 0 100

/-- Line 110: `GaitTotal = GaitTotal_raw * C_vid`. -/
def GaitTotal (i : ScoreArgs) : ℚ := GaitTotal_raw i * C_vid i

/-- Lines 113-119: match score `M`; the externally supplied override is used
(clamped) when present, otherwise the simplified fallback from stride,
pedigree stamina, pedigree surface fit and stability. -/
def M (i : ScoreArgs) : ℚ :=
  match i.race_match_override with
  | none =>
    let Dm := 0.5 * S i + 0.5 * i.ped_stamina
    let Sm := i.ped_surfacefit
    let Cm := W i
    clamp (0.45 * Dm + 0.35 * Sm + 0.20 * Cm) 0 100
  | some ov => clamp ov 0 100

/-- Lines 122-123: `Total = clamp(Total_raw - 0.10*R_adj, 0, 100)` with
`Total_raw = 0.65*GaitTotal + 0.20*ped_score + 0.15*M`. -/
def Total (i : ScoreArgs) : ℚ :=
  clamp ((0.65 * GaitTotal i + 0.20 * i.ped_score + 0.15 * M i) - 0.10 * R_adj i) 0 100

/-- Line 126: `U = 1.0 - clamp(q/100.0, 0.0, 1.0)`. -/
def U (i : ScoreArgs) : ℚ := 1 - clamp (i.q / 100) 0 1

/-- Line 127: confidence-interval half-width parameter `Delta = DELTA_MAX * U`. -/
def Delta (i : ScoreArgs) : ℚ := DELTA_MAX * U i

/-- Line 128: lower CI endpoint `clamp(Total - Delta, 0, 100)`. -/
def CI_lo (i : ScoreArgs) : ℚ := clamp (Total i - Delta i) 0 100

/-- Line 128: upper CI endpoint `clamp(Total + Delta, 0, 100)`. -/
def CI_hi (i : ScoreArgs) : ℚ := clamp (Total i + Delta i) 0 100

/-- Line 131: calibration logit `z` (over the reals). -/
noncomputable def z (i : ScoreArgs) : ℝ :=
  (CAL_A0 : ℝ) + (CAL_A1 : ℝ) * (((Total i : ℚ) : ℝ) - 60) / 8
    + (CAL_A2 : ℝ) * (((M i : ℚ) : ℝ) - 60) / 10

/-- Line 132: `Place = 100.0 * sigmoid(z) * 0.55`. -/
noncomputable def Place (i : ScoreArgs) : ℝ := 100 * sigmoid (z i) * 0.55

/-- Line 133: `Contend = 100.0 * sigmoid(z - 0.7) * 0.25`. -/
noncomputable def Contend (i : ScoreArgs) : ℝ := 100 * sigmoid (z i - 0.7) * 0.25

end SV

/-- `score_v2` from scoring_v2.py (lines 40-147): assembles the returned
dictionary from the intermediate quantities above. -/
noncomputable def score_v2 (i : ScoreArgs) : ScoreResult where
  P := SV.P i
  S := SV.S i
  W := SV.W i
  A := SV.A i
  V := SV.V i
  G := SV.G i
  G_adj := SV.G_adj i
  GaitTotal := SV.GaitTotal i
  R_gait := SV.R_gait i
  R_adj := SV.R_adj i
  stress_risk := SV.StressRisk' i
  paddock_state := SV.PaddockState' i
  M := SV.M i
  Total := SV.Total i
  CI_lo := SV.CI_lo i
  CI_hi := SV.CI_hi i
  C_vid := SV.C_vid i
  PlacePct := SV.Place i
  ContendPct := SV.Contend i
  headbob_suspect := SV.headbob_suspect i
  hind_asym_suspect := SV.hind_asym_suspect i
  fore_asym_suspect := SV.fore_asym_suspect i

/-! ## race_match_v2.py -/

/-- `_get` from race_match_v2.py: dictionary read with a default (the NaN and
conversion-failure guards of the source collapse in an exact-rational model,
where neither can arise). -/
def _get (d : List (String × ℚ)) (key : String) (default : ℚ) : ℚ :=
  (d.lookup key).getD default

/-- Python's `round` at integer precision: round half to even. -/
def pyRound (x : ℚ) : ℤ :=
  if x - Int.floor x < 1 / 2 then Int.floor x
  else if 1 / 2 < x - Int.floor x then Int.floor x + 1
  else if Int.floor x % 2 = 0 then Int.floor x else Int.floor x + 1

/-- Python's `round(x, 2)`: round to the nearest hundredth, half to even. -/
def round2 (x : ℚ) : ℚ := (pyRound (100 * x) : ℚ) / 100

/-- The arguments of `compute_match_M` (race_match_v2.py lines 49-92) after
input resolution: `gait_item_scores` is the 0..100 sub-score dictionary as an
association list; `ped_speed`/`ped_stamina`/`ped_durable` are the values read
out of `pedigree["scores"]` with default 50 (lines 82-92); `surface`, `dist_m`,
`turn`, `corner` and `going` are the lower-cased strings and distance resolved
from `race`/`track_profile` on lines 68-72. -/
structure MatchArgs where
  gait_item_scores : List (String × ℚ)
  ped_speed : ℚ
  ped_stamina : ℚ
  ped_durable : ℚ
  surface : String
  dist_m : ℚ
  turn : String
  corner : String
  going : String

/-! The local variables of `compute_match_M` (lines 74-139), one definition
per source assignment. -/

namespace MM

/-- Line 75: `stride = _get(gait_item_scores, "S", 50.0)`. -/
def stride (a : MatchArgs) : ℚ := _get a.gait_item_scores "S" 50

/-- Line 76: `pitch = _get(gait_item_scores, "P", 50.0)`. -/
def pitch (a : MatchArgs) : ℚ := _get a.gait_item_scores "P" 50

/-- Line 77: `stability = _get(gait_item_scores, "W", 50.0)`. -/
def stability (a : MatchArgs) : ℚ := _get a.gait_item_scores "W" 50

/-- Line 78: `symmetry = _get(gait_item_scores, "A", 50.0)`. -/
def symmetry (a : MatchArgs) : ℚ := _get a.gait_item_scores "A" 50

/-- Line 79: `fatigue = _get(gait_item_scores, "F", 50.0)`. -/
def fatigue (a : MatchArgs) : ℚ := _get a.gait_item_scores "F" 50

/-- Line 80: `speed = _get(gait_item_scores, "V", 50.0)`. -/
def speed (a : MatchArgs) : ℚ := _get a.gait_item_scores "V" 50

/-- Lines 95-102: distance-preference proxy, piecewise in `dist_m`. -/
def dist_pref (a : MatchArgs) : ℚ :=
  if a.dist_m ≤ 0 then 50
  else if a.dist_m ≤ 1400 then 0.65 * a.ped_speed + 0.35 * speed a
  else if a.dist_m ≤ 1800 then 0.45 * a.ped_speed + 0.55 * a.ped_stamina
  else 0.25 * a.ped_speed + 0.75 * a.ped_stamina

/-- Lines 105-110: surface-suitability proxy. -/
def surf_pref (a : MatchArgs) : ℚ :=
  if a.surface = "turf" then
    0.45 * a.ped_speed + 0.25 * stability a + 0.30 * symmetry a
  else if a.surface = "dirt" then
    0.35 * a.ped_durable + 0.25 * fatigue a + 0.20 * stability a + 0.20 * symmetry a
  else
    0.5 * a.ped_durable + 0.5 * stability a

/-- Lines 113-122: corner adjustment. -/
def corner_adj (a : MatchArgs) : ℚ :=
  if a.corner = "tight" ∨ a.corner = "small" ∨ a.corner = "小回り" then
    0.18 * (stability a - 50) + 0.10 * (symmetry a - 50)
      + 0.06 * clamp (70 - stride a) (-50) 50
  else if a.corner = "wide" ∨ a.corner = "large" ∨ a.corner = "大回り" then
    0.12 * (stride a - 50) + 0.06 * (stability a - 50)
  else 0

/-- Lines 125-130: going/footing adjustment. -/
def going_adj (a : MatchArgs) : ℚ :=
  if a.going = "heavy" ∨ a.going = "soft" ∨ a.going = "mud" ∨ a.going = "sloppy"
      ∨ a.going = "不良" ∨ a.going = "重" then
    0.14 * (fatigue a - 50) + 0.10 * (a.ped_durable - 50) + 0.06 * (symmetry a - 50)
  else 0

/-- Lines 134-136: small penalty when turn direction is known and symmetry is
poor. -/
def turn_adj (a : MatchArgs) : ℚ :=
  if (a.turn = "left" ∨ a.turn = "right") ∧ symmetry a < 45 then
    -((45 - symmetry a) * 0.12)
  else 0

/-- Line 138: `base = 0.42*dist_pref + 0.38*surf_pref + 0.10*stability + 0.10*symmetry`. -/
def base (a : MatchArgs) : ℚ :=
  0.42 * dist_pref a + 0.38 * surf_pref a + 0.10 * stability a + 0.10 * symmetry a

/-- Line 139: `match = _clamp(base + corner_adj + going_adj + turn_adj, 0.0, 100.0)`. -/
def matchRaw (a : MatchArgs) : ℚ :=
  clamp (base a + corner_adj a + going_adj a + turn_adj a) 0 100

end MM

/-- The `components` dictionary returned by `compute_match_M` (lines 143-154). -/
structure MatchComponents where
  dist_pref : ℚ
  surf_pref : ℚ
  corner_adj : ℚ
  going_adj : ℚ
  turn_adj : ℚ
  surface : String
  distance_m : ℚ
  turn : String
  corner : String
  going : String

/-- The dictionary returned by `compute_match_M` (lines 141-155). -/
structure MatchResult where
  match_0_100 : ℚ
  components : MatchComponents

/-- `compute_match_M` from race_match_v2.py (lines 49-155): the returned
match score and audit components, each rounded to two decimals as in the
source. -/
def compute_match_M (a : MatchArgs) : MatchResult where
  match_0_100 := round2 (MM.matchRaw a)
  components :=
    { dist_pref := round2 (clamp (MM.dist_pref a) 0 100)
      surf_pref := round2 (clamp (MM.surf_pref a) 0 100)
      corner_adj := round2 (MM.corner_adj a)
      going_adj := round2 (MM.going_adj a)
      turn_adj := round2 (MM.turn_adj a)
      surface := a.surface
      distance_m := a.dist_m
      turn := a.turn
      corner := a.corner
      going := a.going }

/-! ## race_prob_model.py -/

/-- An entrant as consumed by `simulate_finish_probs`: the source reads
`e.get("rating", 50.0)` from each entrant dictionary (`name` is display-only). -/
structure Entrant where
  name : String
  rating : ℚ

/-- The dictionary returned by `simulate_finish_probs`. -/
structure SimResult where
  ok : Bool
  n : ℤ
  field_size : ℕ
  win : ℚ
  top3 : ℚ
  top5 : ℚ
  expected_rank : ℚ
  sigma : ℚ

namespace RP

/-- One trial's performance draws (line 30): `perf = [random.gauss(mu, sigma)
for mu in mus]`. The random source is modelled as an injected function
`gauss : ℕ → ℚ → ℚ → ℚ` mapping (draw counter, mu, sigma) to the drawn value;
draw `t * mus.length + j` is the `j`-th draw of trial `t`, matching the
sequential consumption of `random.gauss`. -/
def perf (mus : List ℚ) (sigma : ℚ) (gauss : ℕ → ℚ → ℚ → ℚ) (t : ℕ) : List ℚ :=
  (List.range mus.length).map fun j => gauss (t * mus.length + j) (mus.getD j 0) sigma

/-- Lines 31-32: `order = sorted(range(m), key=lambda i: perf[i],
reverse=True)`; `r = order.index(0) + 1`. Python's `sorted` is a stable sort;
descending by performance is the stable merge sort with the
`perf[j] ≤ perf[i]` comparison. -/
def rank (p : List ℚ) : ℕ :=
  (((List.range p.length).mergeSort fun i j => decide (p.getD j 0 ≤ p.getD i 0)).indexOf 0) + 1

/-- Lines 33-36: one loop iteration updating `(win, top3, top5, rank_sum)`. -/
def step (mus : List ℚ) (sigma : ℚ) (gauss : ℕ → ℚ → ℚ → ℚ)
    (st : ℕ × ℕ × ℕ × ℚ) (t : ℕ) : ℕ × ℕ × ℕ × ℚ :=
  let r := rank (perf mus sigma gauss t)
  (st.1 + (if r = 1 then 1 else 0),
   st.2.1 + (if r ≤ 3 then 1 else 0),
   st.2.2.1 + (if r ≤ 5 then 1 else 0),
   st.2.2.2 + (r : ℚ))

end RP

/-- `simulate_finish_probs` from race_prob_model.py (lines 5-47). The
`entrants or []` coercion is the identity on a list argument; ratings are the
`e.get("rating", 50.0)` reads. -/
def simulate_finish_probs (our_mu : ℚ) (entrants : List Entrant) (n : ℤ)
    (sigma : ℚ) (gauss : ℕ → ℚ → ℚ → ℚ) : SimResult :=
  let mus := our_mu :: entrants.map fun e => e.rating
  let m := mus.length
  if m ≤ 1 then
    { ok := true, n := n, field_size := 1, win := 1, top3 := 1, top5 := 1,
      expected_rank := 1, sigma := sigma }
  else
    let nn := max 200 n
    let N := nn.toNat
    let st := (List.range N).foldl (RP.step mus sigma gauss) (0, 0, 0, 0)
    { ok := true, n := nn, field_size := m, win := (st.1 : ℚ) / (N : ℚ),
      top3 := (st.2.1 : ℚ) / (N : ℚ), top5 := (st.2.2.1 : ℚ) / (N : ℚ),
      expected_rank := st.2.2.2 / (N : ℚ), sigma := sigma }

/-- `estimate_race_probs` from race_prob_model.py (lines 51-63): the
backward-compatible wrapper. -/
def estimate_race_probs (our_mu : ℚ) (entrants : List Entrant) (n : ℤ)
    (sigma : ℚ) (gauss : ℕ → ℚ → ℚ → ℚ) : SimResult :=
  simulate_finish_probs our_mu entrants n sigma gauss

/-! ## gait_features_v2.py — error contract of `extract_gait_features` -/

/-- `GaitFeatures` from gait_features_v2.py (lines 8-18). -/
structure GaitFeatures where
  pitch_hz : ℚ
  stride_index : ℚ
  wobble_ratio_0_1 : ℚ
  lr_asym_0_1 : ℚ
  speed_proxy : Option ℚ
  roi_asym : List (String × ℚ)
  headbob_ratio : Option ℚ
  quality_score_0_100 : ℚ
  quality_issues : List String

/-- The two fatal error cases of `extract_gait_features`: the
`RuntimeError("Failed to open video")` of line 45 and the
`RuntimeError("Too few frames")` of line 56. -/
inductive GaitError where
  | VideoUnreadable
  | InsufficientFrames
deriving DecidableEq

/-- The video source as seen by `extract_gait_features`: whether
`cv2.VideoCapture` opened it, the reported frame rate
(`cap.get(cv2.CAP_PROP_FPS)`), and the decodable frame sequence that
successive `cap.read()` calls yield. -/
structure VideoCapture (Frame : Type) where
  opened : Bool
  fps : ℚ
  frames : List Frame

/-- `extract_gait_features` from gait_features_v2.py (lines 42-175). The
per-frame numeric core (lines 58-175: cv2 grayscale conversion, Laplacian
sharpness, Farneback dense optical flow and the statistics over them) is an
external-library computation over raster frames, abstracted here as the
`core` parameter; the open/frame-count error contract of lines 43-56 —
which is what the specification constrains — is modelled exactly:
`VideoUnreadable` when the capture is not opened, `InsufficientFrames` when
fewer than 10 frames decode (the read loop stops at `max_frames`), and
otherwise a `GaitFeatures` value computed from the decoded frames and the
frame rate (`fps or 30.0` — a falsy, i.e. zero, rate falls back to 30). -/
def extract_gait_features {Frame : Type} (core : List Frame → ℚ → GaitFeatures)
    (cap : VideoCapture Frame) (max_frames : ℕ) : Except GaitError GaitFeatures :=
  if !cap.opened then
    .error .VideoUnreadable
  else
    let fps := if cap.fps = 0 then 30 else cap.fps
    let frames := cap.frames.take max_frames
    if frames.length < 10 then
      .error .InsufficientFrames
    else
      .ok (core frames fps)

/-! ## Statement abbreviations and concrete instances used by the claims -/

/-- A rational output lying on the 0..100 scale. -/
def bounded100 (v : ℚ) : Prop := 0 ≤ v ∧ v ≤ 100

/-- A real output lying on the 0..100 scale. -/
def bounded100R (v : ℝ) : Prop := 0 ≤ v ∧ v ≤ 100

/-- How a `score_v2` result varies between two quality values `q1 < q2` of
the same argument vector: the confidence interval is strictly wider at the
lower quality, the total is monotone non-decreasing in quality, and every
output other than `C_vid`, `GaitTotal`, `Total`, the CI endpoints and the
calibrated probabilities is unchanged. -/
def QualityVariation (i : ScoreArgs) (q1 q2 : ℚ) : Prop :=
  (score_v2 {i with q := q2}).CI_hi - (score_v2 {i with q := q2}).CI_lo
      < (score_v2 {i with q := q1}).CI_hi - (score_v2 {i with q := q1}).CI_lo
  ∧ (score_v2 {i with q := q1}).Total ≤ (score_v2 {i with q := q2}).Total
  ∧ (score_v2 {i with q := q1}).P = (score_v2 {i with q := q2}).P
  ∧ (score_v2 {i with q := q1}).S = (score_v2 {i with q := q2}).S
  ∧ (score_v2 {i with q := q1}).W = (score_v2 {i with q := q2}).W
  ∧ (score_v2 {i with q := q1}).A = (score_v2 {i with q := q2}).A
  ∧ (score_v2 {i with q := q1}).V = (score_v2 {i with q := q2}).V
  ∧ (score_v2 {i with q := q1}).G = (score_v2 {i with q := q2}).G
  ∧ (score_v2 {i with q := q1}).G_adj = (score_v2 {i with q := q2}).G_adj
  ∧ (score_v2 {i with q := q1}).R_gait = (score_v2 {i with q := q2}).R_gait
  ∧ (score_v2 {i with q := q1}).R_adj = (score_v2 {i with q := q2}).R_adj
  ∧ (score_v2 {i with q := q1}).stress_risk = (score_v2 {i with q := q2}).stress_risk
  ∧ (score_v2 {i with q := q1}).paddock_state = (score_v2 {i with q := q2}).paddock_state
  ∧ (score_v2 {i with q := q1}).M = (score_v2 {i with q := q2}).M
  ∧ (score_v2 {i with q := q1}).headbob_suspect = (score_v2 {i with q := q2}).headbob_suspect
  ∧ (score_v2 {i with q := q1}).hind_asym_suspect = (score_v2 {i with q := q2}).hind_asym_suspect
  ∧ (score_v2 {i with q := q1}).fore_asym_suspect = (score_v2 {i with q := q2}).fore_asym_suspect

/-- A clean-gait argument vector (perfect cadence/wobble/asymmetry item
scores, stride at the saturation top, neutral paddock state), used to
exhibit the quality dependence of the total score. -/
def iBase : ScoreArgs :=
  ⟨0, 0, 6, 0, 0, none, none, none, ⟨50, 50, 50, 50, 50, 50, 0.3⟩, 50, 50, 50, none⟩

/-- An argument vector with maximal excitement/sweating/breathing axes and
zero AI confidence, used to exhibit the stress-risk confidence floor. -/
def iStress : ScoreArgs :=
  ⟨80, 2, 5, 0.1, 0.05, none, none, none, ⟨50, 100, 100, 100, 50, 50, 0⟩, 55, 50, 50, none⟩

/-- A middle-distance (1600 m) match query with pedigree speed 100 and
stamina 0, used to exhibit the 0.45/0.55 distance blend. -/
def aMid : MatchArgs :=
  ⟨[], 100, 0, 50, "turf", 1600, "unknown", "unknown", "unknown"⟩

/-- A tight-corner match query (gait scores supplied separately). -/
def aTight : MatchArgs :=
  ⟨[], 60, 55, 50, "turf", 1600, "left", "tight", "normal"⟩

/-- Gait item scores with stability 40 and symmetry 40. -/
def glLo : List (String × ℚ) :=
  [("S", 60), ("P", 55), ("W", 40), ("A", 40), ("F", 50), ("V", 50)]

/-- The same gait item scores with stability raised to 70 and symmetry
raised to 50. -/
def glHi : List (String × ℚ) :=
  [("S", 60), ("P", 55), ("W", 70), ("A", 50), ("F", 50), ("V", 50)]

/-- Coherence of a simulator result over a field of `k` opponents:
`0 ≤ win ≤ top3 ≤ top5 ≤ 1`, the expected rank lies between 1 and the field
size, and the field size is the number of opponents plus one. -/
def SimCoherent (r : SimResult) (k : ℕ) : Prop :=
  0 ≤ r.win ∧ r.win ≤ r.top3 ∧ r.top3 ≤ r.top5 ∧ r.top5 ≤ 1
  ∧ 1 ≤ r.expected_rank ∧ r.expected_rank ≤ (r.field_size : ℚ)
  ∧ r.field_size = k + 1

/-- A neutral `GaitFeatures` value standing in for the abstract numeric core
in concrete instantiations. -/
def gfNeutral : GaitFeatures := ⟨2, 1, 0, 0, none, [], none, 50, []⟩

/-- An opened capture that yields only 5 frames. -/
def shortCap : VideoCapture Unit := ⟨true, 30, List.replicate 5 ()⟩

/-- A single opposing entrant. -/
def oneRival : List Entrant := [⟨"rival", 50⟩]

/-! ## Basic facts about the numeric helpers -/

theorem clamp_mem {x lo hi : ℚ} (h : lo ≤ hi) :
    lo ≤ clamp x lo hi ∧ clamp x lo hi ≤ hi := by
  unfold clamp
  split_ifs <;> constructor <;> linarith

theorem clamp_mono {x y lo hi : ℚ} (hlh : lo ≤ hi) (h : x ≤ y) :
    clamp x lo hi ≤ clamp y lo hi := by
  unfold clamp
  split_ifs <;> linarith

theorem clamp_sub_le {x y lo hi : ℚ} (h : x ≤ y) :
    clamp y lo hi - clamp x lo hi ≤ y - x := by
  unfold clamp
  split_ifs <;> linarith

theorem clamp_eq_self {x lo hi : ℚ} (h1 : lo ≤ x) (h2 : x ≤ hi) :
    clamp x lo hi = x := by
  unfold clamp
  split_ifs <;> linarith

theorem clamp_eq_min {x : ℚ} (h : 0 ≤ x) : clamp x 0 100 = min x 100 := by
  unfold clamp
  split_ifs <;> [linarith; (rw [min_eq_right]; linarith); (rw [min_eq_left]; linarith)]

theorem clamp_eq_max {x : ℚ} (h : x ≤ 100) : clamp x 0 100 = max x 0 := by
  unfold clamp
  split_ifs <;> [(rw [max_eq_right]; linarith); linarith; (rw [max_eq_left]; linarith)]

theorem sat_mem (x a b : ℚ) : 0 ≤ sat x a b ∧ sat x a b ≤ 1 := by
  unfold sat
  split_ifs with h
  · norm_num
  · exact clamp_mem (by norm_num)

theorem sigmoid_pos (x : ℝ) : 0 < sigmoid x := by
  unfold sigmoid
  have h1 := Real.exp_pos (-x)
  have h2 := Real.exp_pos x
  split_ifs with h
  · apply div_pos one_pos
    linarith
  · apply div_pos h2
    linarith

theorem sigmoid_lt_one (x : ℝ) : sigmoid x < 1 := by
  unfold sigmoid
  have h1 := Real.exp_pos (-x)
  have h2 := Real.exp_pos x
  split_ifs with h
  · rw [div_lt_one (by linarith)]
    linarith
  · rw [div_lt_one (by linarith)]
    linarith

theorem floor_le_pyRound (x : ℚ) : Int.floor x ≤ pyRound x := by
  unfold pyRound
  split_ifs <;> omega

theorem pyRound_le_floor_add_one (x : ℚ) : pyRound x ≤ Int.floor x + 1 := by
  unfold pyRound
  split_ifs <;> omega

theorem pyRound_le (x : ℚ) : (pyRound x : ℚ) ≤ x + 1 / 2 := by
  have hfl := Int.floor_le x
  unfold pyRound
  split_ifs <;> push_cast <;> linarith

theorem le_pyRound (x : ℚ) : x - 1 / 2 ≤ (pyRound x : ℚ) := by
  have hfl := Int.lt_floor_add_one x
  unfold pyRound
  split_ifs <;> push_cast <;> linarith

theorem pyRound_mono {x y : ℚ} (h : x ≤ y) : pyRound x ≤ pyRound y := by
  have hf : Int.floor x ≤ Int.floor y := Int.floor_le_floor h
  rcases lt_or_eq_of_le hf with hlt | heq
  · have h1 := pyRound_le_floor_add_one x
    have h2 := floor_le_pyRound y
    omega
  · have hfr : x - (Int.floor x : ℚ) ≤ y - (Int.floor x : ℚ) := by linarith
    unfold pyRound
    rw [← heq]
    split_ifs <;> first | omega | (exfalso; linarith)

theorem round2_mono {x y : ℚ} (h : x ≤ y) : round2 x ≤ round2 y := by
  unfold round2
  have := pyRound_mono (show 100 * x ≤ 100 * y by linarith)
  have hc : (pyRound (100 * x) : ℚ) ≤ (pyRound (100 * y) : ℚ) := by exact_mod_cast this
  linarith

theorem round2_mem {x : ℚ} (h0 : 0 ≤ x) (h1 : x ≤ 100) :
    0 ≤ round2 x ∧ round2 x ≤ 100 := by
  unfold round2
  constructor
  · have hfl : (0 : ℤ) ≤ Int.floor (100 * x) := by
      rw [Int.le_floor]
      push_cast
      linarith
    have := floor_le_pyRound (100 * x)
    have hc : (0 : ℚ) ≤ (pyRound (100 * x) : ℚ) := by exact_mod_cast le_trans hfl this
    linarith
  · have hle := pyRound_le (100 * x)
    have hlt : (pyRound (100 * x) : ℚ) < 10001 := by linarith
    have hint : pyRound (100 * x) < 10001 := by exact_mod_cast hlt
    have hc : (pyRound (100 * x) : ℚ) ≤ 10000 := by
      have : pyRound (100 * x) ≤ 10000 := by omega
      exact_mod_cast this
    linarith

/-! ## Shared bound lemmas for the scoring engine -/

theorem P_mem (i : ScoreArgs) : 0 ≤ SV.P i ∧ SV.P i ≤ 100 := by
  have := sat_mem i.pitch_hz P0 P1
  unfold SV.P rev
  constructor <;> linarith [this.1, this.2]

theorem S_mem (i : ScoreArgs) : 0 ≤ SV.S i ∧ SV.S i ≤ 100 := by
  have := sat_mem i.stride_index S0 S1
  unfold SV.S
  constructor <;> linarith [this.1, this.2]

theorem W_mem (i : ScoreArgs) : 0 ≤ SV.W i ∧ SV.W i ≤ 100 := by
  have := sat_mem i.wobble W0 W1
  unfold SV.W rev
  constructor <;> linarith [this.1, this.2]

theorem A_mem (i : ScoreArgs) : 0 ≤ SV.A i ∧ SV.A i ≤ 100 := by
  have := sat_mem i.asym A0 A1
  unfold SV.A rev
  constructor <;> linarith [this.1, this.2]

theorem V_mem (i : ScoreArgs) : 0 ≤ SV.V i ∧ SV.V i ≤ 100 := by
  unfold SV.V
  cases hsp : i.speed_proxy with
  | none => norm_num
  | some sp =>
    have := sat_mem sp V0 V1
    constructor <;> simp <;> linarith [this.1, this.2]

theorem G_mem (i : ScoreArgs) : 0 ≤ SV.G i ∧ SV.G i ≤ 100 := by
  have hP := P_mem i
  have hS := S_mem i
  have hW := W_mem i
  have hA := A_mem i
  have hV := V_mem i
  unfold SV.G
  constructor <;> nlinarith [hP.1, hP.2, hS.1, hS.2, hW.1, hW.2, hA.1, hA.2, hV.1, hV.2]

theorem R_gait_mem (i : ScoreArgs) : 0 ≤ SV.R_gait i ∧ SV.R_gait i ≤ 100 :=
  clamp_mem (by norm_num)

theorem K_ai_mem (i : ScoreArgs) : 1 / 2 ≤ SV.K_ai i ∧ SV.K_ai i ≤ 1 := by
  have := clamp_mem (show (0:ℚ) ≤ 1 by norm_num) (x := i.ai_state.AiConf)
  unfold SV.K_ai
  constructor <;> linarith [this.1, this.2]

theorem PaddockState_mem (i : ScoreArgs) : 0 ≤ SV.PaddockState i ∧ SV.PaddockState i ≤ 100 := by
  have := clamp_mem (show (0:ℚ) ≤ 1 by norm_num)
    (x := 0.30 * SV.t i + 0.25 * SV.f i + 0.30 * SV.co i + 0.15 * (1 - SV.x i))
  unfold SV.PaddockState
  constructor <;> linarith [this.1, this.2]

theorem PaddockState'_mem (i : ScoreArgs) :
    0 ≤ SV.PaddockState' i ∧ SV.PaddockState' i ≤ 100 := by
  have hK := K_ai_mem i
  have hP := PaddockState_mem i
  unfold SV.PaddockState'
  constructor <;> nlinarith [hK.1, hK.2, hP.1, hP.2]

theorem Stress_mem (i : ScoreArgs) : 0 ≤ SV.Stress i ∧ SV.Stress i ≤ 1 :=
  clamp_mem (by norm_num)

theorem StressRisk'_mem (i : ScoreArgs) : 0 ≤ SV.StressRisk' i ∧ SV.StressRisk' i ≤ 100 := by
  have hK := K_ai_mem i
  have hS := Stress_mem i
  unfold SV.StressRisk'
  constructor <;> nlinarith [hK.1, hK.2, hS.1, hS.2]

theorem G_adj_mem (i : ScoreArgs) : 0 ≤ SV.G_adj i ∧ SV.G_adj i ≤ 100 :=
  clamp_mem (by norm_num)

theorem R_adj_mem (i : ScoreArgs) : 0 ≤ SV.R_adj i ∧ SV.R_adj i ≤ 100 :=
  clamp_mem (by norm_num)

theorem GaitTotal_raw_mem (i : ScoreArgs) :
    0 ≤ SV.GaitTotal_raw i ∧ SV.GaitTotal_raw i ≤ 100 :=
  clamp_mem (by norm_num)

theorem C_vid_mem (i : ScoreArgs) : 0.65 ≤ SV.C_vid i ∧ SV.C_vid i ≤ 1 := by
  have := clamp_mem (show (0:ℚ) ≤ 1 by norm_num) (x := i.q / 100)
  unfold SV.C_vid
  constructor <;> linarith [this.1, this.2]

theorem GaitTotal_mem (i : ScoreArgs) : 0 ≤ SV.GaitTotal i ∧ SV.GaitTotal i ≤ 100 := by
  have hR := GaitTotal_raw_mem i
  have hC := C_vid_mem i
  unfold SV.GaitTotal
  constructor <;> nlinarith [hR.1, hR.2, hC.1, hC.2]

theorem M_mem (i : ScoreArgs) : 0 ≤ SV.M i ∧ SV.M i ≤ 100 := by
  unfold SV.M
  cases h : i.race_match_override with
  | none => exact clamp_mem (by norm_num)
  | some ov => exact clamp_mem (by norm_num)

theorem Total_mem (i : ScoreArgs) : 0 ≤ SV.Total i ∧ SV.Total i ≤ 100 :=
  clamp_mem (by norm_num)

theorem Delta_mem (i : ScoreArgs) : 0 ≤ SV.Delta i ∧ SV.Delta i ≤ 18 := by
  have := clamp_mem (show (0:ℚ) ≤ 1 by norm_num) (x := i.q / 100)
  unfold SV.Delta SV.U DELTA_MAX
  constructor <;> nlinarith [this.1, this.2]

/-- Coupling used for the confidence-interval width analysis: the clamp
defining `GaitTotal_raw` forces `0.35 * R_adj + GaitTotal_raw ≤ 100`. -/
theorem R_adj_GaitTotal_raw_coupling (i : ScoreArgs) :
    0.35 * SV.R_adj i + SV.GaitTotal_raw i ≤ 100 := by
  have hG := G_adj_mem i
  have hR := R_adj_mem i
  unfold SV.GaitTotal_raw clamp
  split_ifs <;> linarith [hG.2, hR.1, hR.2]

theorem Place_mem (i : ScoreArgs) : 0 ≤ SV.Place i ∧ SV.Place i ≤ 100 := by
  have h1 := sigmoid_pos (SV.z i)
  have h2 := sigmoid_lt_one (SV.z i)
  unfold SV.Place
  constructor <;> nlinarith

theorem Contend_mem (i : ScoreArgs) : 0 ≤ SV.Contend i ∧ SV.Contend i ≤ 100 := by
  have h1 := sigmoid_pos (SV.z i - 0.7)
  have h2 := sigmoid_lt_one (SV.z i - 0.7)
  unfold SV.Contend
  constructor <;> nlinarith

theorem CI_lo_le_Total (i : ScoreArgs) : SV.CI_lo i ≤ SV.Total i := by
  have hT := Total_mem i
  have hD := Delta_mem i
  have h : clamp (SV.Total i - SV.Delta i) 0 100 ≤ clamp (SV.Total i) 0 100 :=
    clamp_mono (by norm_num) (by linarith [hD.1])
  rwa [clamp_eq_self hT.1 hT.2] at h

theorem Total_le_CI_hi (i : ScoreArgs) : SV.Total i ≤ SV.CI_hi i := by
  have hT := Total_mem i
  have hD := Delta_mem i
  have h : clamp (SV.Total i) 0 100 ≤ clamp (SV.Total i + SV.Delta i) 0 100 :=
    clamp_mono (by norm_num) (by linarith [hD.1])
  rwa [clamp_eq_self hT.1 hT.2] at h

/-- The video-trust multiplier and the CI half-width parameter are affinely
related: `C_vid = 1 - 7·Delta/360`. -/
theorem C_vid_eq_Delta (i : ScoreArgs) : SV.C_vid i = 1 - 7 * SV.Delta i / 360 := by
  unfold SV.C_vid SV.Delta SV.U DELTA_MAX
  ring

/-- Strict monotonicity of the realized confidence-interval width in the
half-width parameter under the coupling that `score_v2` guarantees between
the clamped total `t = clamp(E - (7k/360)·D, 0, 100)` and the half-width `D`
(`k = 0.65·GaitTotal_raw`, `E = k + 0.20·ped + 0.15·M - 0.10·R_adj`): for
half-widths `D2 < D1` the realized width `min(t+D,100) - max(t-D,0)` is
strictly larger at `D1`. -/
theorem ci_width_strict (E k D1 D2 t1 t2 : ℚ)
    (hk0 : 0 ≤ k) (hk65 : k ≤ 65)
    (hD2 : 0 ≤ D2) (hD12 : D2 < D1) (hD1 : D1 ≤ 18)
    (hElo : 131 * k / 91 - 200 / 7 ≤ E) (hEhi : E ≤ 35 + k)
    (ht1 : t1 = clamp (E - 7 * k / 360 * D1) 0 100)
    (ht2 : t2 = clamp (E - 7 * k / 360 * D2) 0 100) :
    min (t2 + D2) 100 - max (t2 - D2) 0 < min (t1 + D1) 100 - max (t1 - D1) 0 := by
  have h1mem : 0 ≤ t1 ∧ t1 ≤ 100 := ht1 ▸ clamp_mem (by norm_num)
  have h2mem : 0 ≤ t2 ∧ t2 ≤ 100 := ht2 ▸ clamp_mem (by norm_num)
  have hargle : E - 7 * k / 360 * D1 ≤ E - 7 * k / 360 * D2 := by nlinarith
  have ht12 : t1 ≤ t2 := by
    rw [ht1, ht2]
    exact clamp_mono (by norm_num) hargle
  have hlip : t2 - t1 ≤ 7 * k / 360 * (D1 - D2) := by
    rw [ht1, ht2]
    calc clamp (E - 7 * k / 360 * D2) 0 100 - clamp (E - 7 * k / 360 * D1) 0 100
        ≤ (E - 7 * k / 360 * D2) - (E - 7 * k / 360 * D1) := clamp_sub_le hargle
      _ = 7 * k / 360 * (D1 - D2) := by ring
  rcases le_or_lt (7 * k) 360 with ha | ha
  · -- trust-slope at most one: endpoints move with D in opposite directions
    have hhi : t2 + D2 ≤ t1 + D1 := by
      nlinarith [mul_nonneg (show (0:ℚ) ≤ 360 - 7 * k by linarith)
        (show (0:ℚ) ≤ D1 - D2 by linarith)]
    rcases le_or_lt (t2 - D2) 0 with hlo2 | hlo2
    · -- both lower endpoints clamp at 0 and both upper endpoints are free
      have ht2le : t2 ≤ D2 := by linarith
      have h36a : t2 + D2 ≤ 100 := by linarith
      have h36b : t1 + D1 ≤ 100 := by linarith
      rw [min_eq_left h36a, min_eq_left h36b,
        max_eq_right (show t2 - D2 ≤ 0 by linarith),
        max_eq_right (show t1 - D1 ≤ 0 by linarith)]
      rcases lt_or_eq_of_le ha with halt | haeq
      · nlinarith [mul_pos (show (0:ℚ) < 360 - 7 * k by linarith)
          (show (0:ℚ) < D1 - D2 by linarith)]
      · -- slope exactly one forces a total too large to be clamped at 0
        exfalso
        have hklarge : k = 360 / 7 := by linarith
        have hEbig : (28960 : ℚ) / 637 ≤ E := by
          rw [hklarge] at hElo
          linarith
        have hcoef : 7 * k / 360 = 1 := by
          rw [hklarge]
          norm_num
        have ht2v : t2 = E - D2 := by
          rw [ht2, hcoef, one_mul]
          exact clamp_eq_self (by linarith) (by rw [hklarge] at hEhi; linarith)
        rw [ht2v] at ht2le
        linarith
    · -- lower endpoints free: lo strictly increases, hi does not increase
      have hlo1lt : max (t1 - D1) 0 < max (t2 - D2) 0 := by
        rw [max_eq_left (le_of_lt hlo2)]
        rcases le_or_lt (t1 - D1) 0 with h | h
        · rw [max_eq_right h]
          linarith
        · rw [max_eq_left (le_of_lt h)]
          linarith
      have hhi21 : min (t2 + D2) 100 ≤ min (t1 + D1) 100 := min_le_min hhi (le_refl _)
      linarith
  · -- trust-slope above one: both totals are unclamped and well inside
    have hEbig : (28960 : ℚ) / 637 < E := by nlinarith
    have haD1 : 7 * k / 360 * D1 ≤ 91 / 4 := by nlinarith
    have haD2 : 7 * k / 360 * D2 ≤ 91 / 4 := by nlinarith
    have haD2n : 0 ≤ 7 * k / 360 * D2 := by positivity
    have haD1n : 0 ≤ 7 * k / 360 * D1 := by
      have hD1n : (0:ℚ) ≤ D1 := le_trans hD2 hD12.le
      positivity
    have ht1v : t1 = E - 7 * k / 360 * D1 := by
      rw [ht1]
      exact clamp_eq_self (by linarith) (by linarith)
    have ht2v : t2 = E - 7 * k / 360 * D2 := by
      rw [ht2]
      exact clamp_eq_self (by linarith) (by linarith)
    have hlo1 : max (t1 - D1) 0 = t1 - D1 := max_eq_left (by rw [ht1v]; linarith)
    have hlo2' : max (t2 - D2) 0 = t2 - D2 := max_eq_left (by rw [ht2v]; linarith)
    rw [hlo1, hlo2']
    rcases le_or_lt (t1 + D1) 100 with hA | hA <;> rcases le_or_lt (t2 + D2) 100 with hB | hB
    · rw [min_eq_left hA, min_eq_left hB]
      linarith
    · rw [min_eq_left hA, min_eq_right (le_of_lt hB)]
      linarith
    · rw [min_eq_right (le_of_lt hA), min_eq_left hB]
      linarith
    · rw [min_eq_right (le_of_lt hA), min_eq_right (le_of_lt hB)]
      linarith

/-! ## Claim theorems -/

/-- C2: for every input to `score_v2`, the returned total equals
`clamp(0.65·GaitTotal + 0.20·ped_score + 0.15·M − 0.10·R_adj, 0, 100)`,
where `GaitTotal`, `M` and `R_adj` are the values returned in the same
result. -/
theorem total_combination_formula (i : ScoreArgs) :
    (score_v2 i).Total
      = clamp (0.65 * (score_v2 i).GaitTotal + 0.20 * i.ped_score
          + 0.15 * (score_v2 i).M - 0.10 * (score_v2 i).R_adj) 0 100 := rfl

/-- C3: for every input to `score_v2`, every 0..100-scaled output field lies
in `[0,100]`, and the confidence interval brackets the total:
`CI_lo ≤ Total ≤ CI_hi`. -/
theorem score_outputs_bounded (i : ScoreArgs) :
    bounded100 (score_v2 i).P ∧ bounded100 (score_v2 i).S
    ∧ bounded100 (score_v2 i).W ∧ bounded100 (score_v2 i).A
    ∧ bounded100 (score_v2 i).V ∧ bounded100 (score_v2 i).G
    ∧ bounded100 (score_v2 i).G_adj ∧ bounded100 (score_v2 i).GaitTotal
    ∧ bounded100 (score_v2 i).R_gait ∧ bounded100 (score_v2 i).R_adj
    ∧ bounded100 (score_v2 i).stress_risk ∧ bounded100 (score_v2 i).paddock_state
    ∧ bounded100 (score_v2 i).M ∧ bounded100 (score_v2 i).Total
    ∧ bounded100 (score_v2 i).CI_lo ∧ bounded100 (score_v2 i).CI_hi
    ∧ bounded100R (score_v2 i).PlacePct ∧ bounded100R (score_v2 i).ContendPct
    ∧ (score_v2 i).CI_lo ≤ (score_v2 i).Total
    ∧ (score_v2 i).Total ≤ (score_v2 i).CI_hi :=
  ⟨P_mem i, S_mem i, W_mem i, A_mem i, V_mem i, G_mem i, G_adj_mem i,
    GaitTotal_mem i, R_gait_mem i, R_adj_mem i, StressRisk'_mem i,
    PaddockState'_mem i, M_mem i, Total_mem i, clamp_mem (by norm_num),
    clamp_mem (by norm_num), Place_mem i, Contend_mem i,
    CI_lo_le_Total i, Total_le_CI_hi i⟩

/-- C6 (amended): the stress risk returned by `score_v2` equals the clamped
excitement/sweating/breathing blend scaled by `100·K_ai` where
`K_ai = 0.5 + 0.5·clamp(ai_confidence, 0, 1)` — an affine function of the
confidence with intercept `50·Stress`, not a linear one with zero
intercept. -/
theorem stress_risk_formula (i : ScoreArgs) :
    (score_v2 i).stress_risk
      = (50 + 50 * clamp i.ai_state.AiConf 0 1)
        * clamp (0.45 * clamp (i.ai_state.X / 100) 0 1
            + 0.35 * clamp (i.ai_state.SW / 100) 0 1
            + 0.20 * clamp (i.ai_state.BR / 100) 0 1) 0 1 := by
  show SV.StressRisk' i = _
  unfold SV.StressRisk' SV.K_ai SV.Stress SV.x SV.sw SV.br
  ring

/-- C6 (counterexample): with maximal excitement/sweating/breathing axes and
`ai_confidence = 0`, the returned stress risk is 50, not 0 — so the claim
that stress risk is the blend multiplied by the confidence (hence 0 at zero
confidence) is false on the code. -/
theorem stress_risk_at_zero_confidence :
    iStress.ai_state.AiConf = 0
    ∧ (score_v2 iStress).stress_risk = 50
    ∧ (50 : ℚ) ≠ 0 := by
  refine ⟨rfl, ?_, by norm_num⟩
  show SV.StressRisk' iStress = 50
  norm_num [SV.StressRisk', SV.K_ai, SV.Stress, SV.x, SV.sw, SV.br, iStress, clamp]

/-- C7: with an empty opponent list the simulator returns exactly
`win = top3 = top5 = expected_rank = 1` for every subject mean, trial count
and sigma, and the result does not depend on the injected random source at
all (no draws are consumed). -/
theorem empty_field_degenerate (our_mu : ℚ) (n : ℤ) (sigma : ℚ)
    (g g' : ℕ → ℚ → ℚ → ℚ) :
    (simulate_finish_probs our_mu [] n sigma g).win = 1
    ∧ (simulate_finish_probs our_mu [] n sigma g).top3 = 1
    ∧ (simulate_finish_probs our_mu [] n sigma g).top5 = 1
    ∧ (simulate_finish_probs our_mu [] n sigma g).expected_rank = 1
    ∧ simulate_finish_probs our_mu [] n sigma g
        = simulate_finish_probs our_mu [] n sigma g' :=
  ⟨rfl, rfl, rfl, rfl, rfl⟩

/-- C10: two `score_v2` calls whose inputs differ only in the head-region
asymmetry value `roi_asym["head"]` return identical numeric fields and
identical `headbob`/`hind` flags — the head value can influence only the
`fore_asym_suspect` clinical flag, which feeds no numeric output. -/
theorem head_roi_changes_only_fore_flag (i : ScoreArgs) (h1 h2 tr hd : ℚ) :
    (score_v2 {i with roi_asym := some [("head", h1), ("trunk", tr), ("hind", hd)]}).P
        = (score_v2 {i with roi_asym := some [("head", h2), ("trunk", tr), ("hind", hd)]}).P
    ∧ (score_v2 {i with roi_asym := some [("head", h1), ("trunk", tr), ("hind", hd)]}).S
        = (score_v2 {i with roi_asym := some [("head", h2), ("trunk", tr), ("hind", hd)]}).S
    ∧ (score_v2 {i with roi_asym := some [("head", h1), ("trunk", tr), ("hind", hd)]}).W
        = (score_v2 {i with roi_asym := some [("head", h2), ("trunk", tr), ("hind", hd)]}).W
    ∧ (score_v2 {i with roi_asym := some [("head", h1), ("trunk", tr), ("hind", hd)]}).A
        = (score_v2 {i with roi_asym := some [("head", h2), ("trunk", tr), ("hind", hd)]}).A
    ∧ (score_v2 {i with roi_asym := some [("head", h1), ("trunk", tr), ("hind", hd)]}).V
        = (score_v2 {i with roi_asym := some [("head", h2), ("trunk", tr), ("hind", hd)]}).V
    ∧ (score_v2 {i with roi_asym := some [("head", h1), ("trunk", tr), ("hind", hd)]}).G
        = (score_v2 {i with roi_asym := some [("head", h2), ("trunk", tr), ("hind", hd)]}).G
    ∧ (score_v2 {i with roi_asym := some [("head", h1), ("trunk", tr), ("hind", hd)]}).G_adj
        = (score_v2 {i with roi_asym := some [("head", h2), ("trunk", tr), ("hind", hd)]}).G_adj
    ∧ (score_v2 {i with roi_asym := some [("head", h1), ("trunk", tr), ("hind", hd)]}).GaitTotal
        = (score_v2 {i with roi_asym := some [("head", h2), ("trunk", tr), ("hind", hd)]}).GaitTotal
    ∧ (score_v2 {i with roi_asym := some [("head", h1), ("trunk", tr), ("hind", hd)]}).R_gait
        = (score_v2 {i with roi_asym := some [("head", h2), ("trunk", tr), ("hind", hd)]}).R_gait
    ∧ (score_v2 {i with roi_asym := some [("head", h1), ("trunk", tr), ("hind", hd)]}).R_adj
        = (score_v2 {i with roi_asym := some [("head", h2), ("trunk", tr), ("hind", hd)]}).R_adj
    ∧ (score_v2 {i with roi_asym := some [("head", h1), ("trunk", tr), ("hind", hd)]}).stress_risk
        = (score_v2 {i with roi_asym := some [("head", h2), ("trunk", tr), ("hind", hd)]}).stress_risk
    ∧ (score_v2 {i with roi_asym := some [("head", h1), ("trunk", tr), ("hind", hd)]}).paddock_state
        = (score_v2 {i with roi_asym := some [("head", h2), ("trunk", tr), ("hind", hd)]}).paddock_state
    ∧ (score_v2 {i with roi_asym := some [("head", h1), ("trunk", tr), ("hind", hd)]}).M
        = (score_v2 {i with roi_asym := some [("head", h2), ("trunk", tr), ("hind", hd)]}).M
    ∧ (score_v2 {i with roi_asym := some [("head", h1), ("trunk", tr), ("hind", hd)]}).Total
        = (score_v2 {i with roi_asym := some [("head", h2), ("trunk", tr), ("hind", hd)]}).Total
    ∧ (score_v2 {i with roi_asym := some [("head", h1), ("trunk", tr), ("hind", hd)]}).CI_lo
        = (score_v2 {i with roi_asym := some [("head", h2), ("trunk", tr), ("hind", hd)]}).CI_lo
    ∧ (score_v2 {i with roi_asym := some [("head", h1), ("trunk", tr), ("hind", hd)]}).CI_hi
        = (score_v2 {i with roi_asym := some [("head", h2), ("trunk", tr), ("hind", hd)]}).CI_hi
    ∧ (score_v2 {i with roi_asym := some [("head", h1), ("trunk", tr), ("hind", hd)]}).C_vid
        = (score_v2 {i with roi_asym := some [("head", h2), ("trunk", tr), ("hind", hd)]}).C_vid
    ∧ (score_v2 {i with roi_asym := some [("head", h1), ("trunk", tr), ("hind", hd)]}).PlacePct
        = (score_v2 {i with roi_asym := some [("head", h2), ("trunk", tr), ("hind", hd)]}).PlacePct
    ∧ (score_v2 {i with roi_asym := some [("head", h1), ("trunk", tr), ("hind", hd)]}).ContendPct
        = (score_v2 {i with roi_asym := some [("head", h2), ("trunk", tr), ("hind", hd)]}).ContendPct
    ∧ (score_v2 {i with roi_asym := some [("head", h1), ("trunk", tr), ("hind", hd)]}).headbob_suspect
        = (score_v2 {i with roi_asym := some [("head", h2), ("trunk", tr), ("hind", hd)]}).headbob_suspect
    ∧ (score_v2 {i with roi_asym := some [("head", h1), ("trunk", tr), ("hind", hd)]}).hind_asym_suspect
        = (score_v2 {i with roi_asym := some [("head", h2), ("trunk", tr), ("hind", hd)]}).hind_asym_suspect :=
  ⟨rfl, rfl, rfl, rfl, rfl, rfl, rfl, rfl, rfl, rfl, rfl, rfl, rfl, rfl, rfl,
    rfl, rfl, rfl, rfl, rfl, rfl⟩

/-- C4: with the corner fixed to `tight` and all other inputs fixed, raising
the stability and/or symmetry item scores never lowers the match score
returned by `compute_match_M`, and the returned match score always lies in
`[0,100]`. -/
theorem tight_corner_match_monotone (a : MatchArgs) (l1 l2 : List (String × ℚ))
    (hcorner : a.corner = "tight")
    (hS : _get l1 "S" 50 = _get l2 "S" 50)
    (hF : _get l1 "F" 50 = _get l2 "F" 50)
    (hV : _get l1 "V" 50 = _get l2 "V" 50)
    (hW : _get l1 "W" 50 ≤ _get l2 "W" 50)
    (hA : _get l1 "A" 50 ≤ _get l2 "A" 50) :
    (compute_match_M {a with gait_item_scores := l1}).match_0_100
      ≤ (compute_match_M {a with gait_item_scores := l2}).match_0_100
    ∧ bounded100 (compute_match_M {a with gait_item_scores := l1}).match_0_100
    ∧ bounded100 (compute_match_M {a with gait_item_scores := l2}).match_0_100 := by
  have hdp : MM.dist_pref {a with gait_item_scores := l1}
      = MM.dist_pref {a with gait_item_scores := l2} := by
    simp only [MM.dist_pref, MM.speed]
    rw [hV]
  have hsp : MM.surf_pref {a with gait_item_scores := l1}
      ≤ MM.surf_pref {a with gait_item_scores := l2} := by
    simp only [MM.surf_pref, MM.stability, MM.symmetry, MM.fatigue]
    rw [hF]
    split_ifs <;> linarith
  have hca : MM.corner_adj {a with gait_item_scores := l1}
      ≤ MM.corner_adj {a with gait_item_scores := l2} := by
    simp only [MM.corner_adj, MM.stability, MM.symmetry, MM.stride]
    rw [hcorner, hS]
    rw [if_pos (Or.inl rfl), if_pos (Or.inl rfl)]
    linarith
  have hga : MM.going_adj {a with gait_item_scores := l1}
      ≤ MM.going_adj {a with gait_item_scores := l2} := by
    simp only [MM.going_adj, MM.symmetry, MM.fatigue]
    rw [hF]
    split_ifs <;> linarith
  have hta : MM.turn_adj {a with gait_item_scores := l1}
      ≤ MM.turn_adj {a with gait_item_scores := l2} := by
    simp only [MM.turn_adj, MM.symmetry]
    split_ifs with h1 h2 h2
    · linarith [h1.2, h2.2]
    · linarith [h1.2]
    · exfalso
      push_neg at h1
      have := h1 h2.1
      linarith [h2.2]
    · norm_num
  refine ⟨?_, round2_mem (clamp_mem (by norm_num)).1 (clamp_mem (by norm_num)).2,
    round2_mem (clamp_mem (by norm_num)).1 (clamp_mem (by norm_num)).2⟩
  show round2 (MM.matchRaw _) ≤ round2 (MM.matchRaw _)
  apply round2_mono
  unfold MM.matchRaw
  apply clamp_mono (by norm_num)
  simp only [MM.base, MM.stability, MM.symmetry]
  linarith [hdp, hsp, hca, hga, hta, hW, hA]

/-- C4 (witness): the monotonicity and boundedness at the concrete
tight-corner query `aTight` with gait scores `glLo` and `glHi`. -/
theorem tight_corner_match_monotone_witness :
    aTight.corner = "tight"
    ∧ _get glLo "S" 50 = _get glHi "S" 50
    ∧ _get glLo "F" 50 = _get glHi "F" 50
    ∧ _get glLo "V" 50 = _get glHi "V" 50
    ∧ _get glLo "W" 50 ≤ _get glHi "W" 50
    ∧ _get glLo "A" 50 ≤ _get glHi "A" 50
    ∧ ((compute_match_M {aTight with gait_item_scores := glLo}).match_0_100
          ≤ (compute_match_M {aTight with gait_item_scores := glHi}).match_0_100
        ∧ bounded100 (compute_match_M {aTight with gait_item_scores := glLo}).match_0_100
        ∧ bounded100 (compute_match_M {aTight with gait_item_scores := glHi}).match_0_100) := by
  have hW : _get glLo "W" 50 ≤ _get glHi "W" 50 := by
    rw [show _get glLo "W" 50 = 40 from rfl, show _get glHi "W" 50 = 70 from rfl]
    norm_num
  have hA : _get glLo "A" 50 ≤ _get glHi "A" 50 := by
    rw [show _get glLo "A" 50 = 40 from rfl, show _get glHi "A" 50 = 50 from rfl]
    norm_num
  exact ⟨rfl, rfl, rfl, rfl, hW, hA,
    tight_corner_match_monotone aTight glLo glHi rfl rfl rfl rfl hW hA⟩

/-- C5 (amended): the distance-preference component returned by
`compute_match_M` is piecewise in the distance: neutral 50 for a non-positive
(unknown) distance; the 0.65 pedigree-speed / 0.35 gait-speed blend up to
1400 m; the 0.45 pedigree-speed / 0.55 pedigree-stamina blend (near-even but
slightly stamina-leaning, not equal weights) up to 1800 m; and the
stamina-dominant 0.25/0.75 blend beyond 1800 m — each clamped to `[0,100]`
and rounded to two decimals as returned. -/
theorem dist_pref_piecewise (a : MatchArgs) :
    (a.dist_m ≤ 0 → (compute_match_M a).components.dist_pref = 50)
    ∧ (0 < a.dist_m → a.dist_m ≤ 1400 →
        (compute_match_M a).components.dist_pref
          = round2 (clamp (0.65 * a.ped_speed + 0.35 * MM.speed a) 0 100))
    ∧ (1400 < a.dist_m → a.dist_m ≤ 1800 →
        (compute_match_M a).components.dist_pref
          = round2 (clamp (0.45 * a.ped_speed + 0.55 * a.ped_stamina) 0 100))
    ∧ (1800 < a.dist_m →
        (compute_match_M a).components.dist_pref
          = round2 (clamp (0.25 * a.ped_speed + 0.75 * a.ped_stamina) 0 100)) := by
  refine ⟨fun h0 => ?_, fun h0 h1 => ?_, fun h0 h1 => ?_, fun h0 => ?_⟩
  · show round2 (clamp (MM.dist_pref a) 0 100) = 50
    unfold MM.dist_pref
    rw [if_pos h0, clamp_eq_self (by norm_num) (by norm_num)]
    norm_num [round2, pyRound]
  · show round2 (clamp (MM.dist_pref a) 0 100) = _
    unfold MM.dist_pref
    rw [if_neg (by linarith), if_pos h1]
  · show round2 (clamp (MM.dist_pref a) 0 100) = _
    unfold MM.dist_pref
    rw [if_neg (by linarith), if_neg (by linarith), if_pos h1]
  · show round2 (clamp (MM.dist_pref a) 0 100) = _
    unfold MM.dist_pref
    rw [if_neg (by linarith), if_neg (by linarith), if_neg (by linarith)]

/-- C5 (witness): the middle-distance regime at the concrete 1600 m query
`aMid`. -/
theorem dist_pref_piecewise_witness :
    (1400 : ℚ) < aMid.dist_m ∧ aMid.dist_m ≤ 1800
    ∧ (compute_match_M aMid).components.dist_pref
        = round2 (clamp (0.45 * aMid.ped_speed + 0.55 * aMid.ped_stamina) 0 100) := by
  refine ⟨?_, ?_, (dist_pref_piecewise aMid).2.2.1 ?_ ?_⟩ <;>
    norm_num [aMid]

/-- C5 (counterexample): at 1600 m with pedigree speed 100 and stamina 0 the
returned distance-preference component is 45, while an even (equal-weight)
blend of pedigree speed and stamina would give 50 — so the middle-distance
blend is not even. -/
theorem mid_distance_blend_not_even :
    (compute_match_M aMid).components.dist_pref = 45
    ∧ 0.5 * aMid.ped_speed + 0.5 * aMid.ped_stamina = 50
    ∧ (45 : ℚ) ≠ 50 := by
  refine ⟨?_, by norm_num [aMid], by norm_num⟩
  show round2 (clamp (MM.dist_pref aMid) 0 100) = 45
  have h : MM.dist_pref aMid = 45 := by norm_num [MM.dist_pref, aMid]
  rw [h, clamp_eq_self (by norm_num) (by norm_num)]
  norm_num [round2, pyRound]

/-! ## Simulator lemmas -/

theorem perf_length (mus : List ℚ) (sigma : ℚ) (gauss : ℕ → ℚ → ℚ → ℚ) (t : ℕ) :
    (RP.perf mus sigma gauss t).length = mus.length := by
  simp [RP.perf]

theorem rank_bounds (p : List ℚ) (hp : 0 < p.length) :
    1 ≤ RP.rank p ∧ RP.rank p ≤ p.length := by
  refine ⟨Nat.succ_le_succ (Nat.zero_le _), ?_⟩
  unfold RP.rank
  have hperm :
      ((List.range p.length).mergeSort fun i j => decide (p.getD j 0 ≤ p.getD i 0)).Perm
        (List.range p.length) := List.mergeSort_perm _ _
  have hmem : 0 ∈ (List.range p.length).mergeSort
      fun i j => decide (p.getD j 0 ≤ p.getD i 0) :=
    hperm.mem_iff.mpr (List.mem_range.mpr hp)
  have hidx := List.indexOf_lt_length.mpr hmem
  have hlen :
      ((List.range p.length).mergeSort fun i j => decide (p.getD j 0 ≤ p.getD i 0)).length
        = p.length := by
    rw [List.length_mergeSort, List.length_range]
  omega

theorem foldl_step_bounds (mus : List ℚ) (sigma : ℚ) (gauss : ℕ → ℚ → ℚ → ℚ)
    (m : ℕ)
    (hb : ∀ t : ℕ, 1 ≤ RP.rank (RP.perf mus sigma gauss t)
        ∧ RP.rank (RP.perf mus sigma gauss t) ≤ m) :
    ∀ (L : List ℕ) (st : ℕ × ℕ × ℕ × ℚ), st.1 ≤ st.2.1 → st.2.1 ≤ st.2.2.1 →
      (L.foldl (RP.step mus sigma gauss) st).1
          ≤ (L.foldl (RP.step mus sigma gauss) st).2.1
      ∧ (L.foldl (RP.step mus sigma gauss) st).2.1
          ≤ (L.foldl (RP.step mus sigma gauss) st).2.2.1
      ∧ (L.foldl (RP.step mus sigma gauss) st).2.2.1 ≤ st.2.2.1 + L.length
      ∧ st.2.2.2 + L.length ≤ (L.foldl (RP.step mus sigma gauss) st).2.2.2
      ∧ (L.foldl (RP.step mus sigma gauss) st).2.2.2
          ≤ st.2.2.2 + (L.length : ℚ) * m := by
  intro L
  induction L with
  | nil =>
    intro st h1 h2
    simp only [List.foldl_nil, List.length_nil, Nat.add_zero, Nat.cast_zero]
    exact ⟨h1, h2, le_refl _, by linarith, by linarith⟩
  | cons hd tl ih =>
    intro st h1 h2
    obtain ⟨hr1, hrm⟩ := hb hd
    have hr1Q : (1 : ℚ) ≤ (RP.rank (RP.perf mus sigma gauss hd) : ℚ) := by
      exact_mod_cast hr1
    have hrmQ : (RP.rank (RP.perf mus sigma gauss hd) : ℚ) ≤ (m : ℚ) := by
      exact_mod_cast hrm
    have h1' : (RP.step mus sigma gauss st hd).1 ≤ (RP.step mus sigma gauss st hd).2.1 := by
      unfold RP.step
      dsimp only
      split_ifs <;> omega
    have h2' : (RP.step mus sigma gauss st hd).2.1 ≤ (RP.step mus sigma gauss st hd).2.2.1 := by
      unfold RP.step
      dsimp only
      split_ifs <;> omega
    obtain ⟨g1, g2, g3, g4, g5⟩ := ih (RP.step mus sigma gauss st hd) h1' h2'
    have ht5 : (RP.step mus sigma gauss st hd).2.2.1 ≤ st.2.2.1 + 1 := by
      unfold RP.step
      dsimp only
      split_ifs <;> omega
    have hrs_lo : st.2.2.2 + 1 ≤ (RP.step mus sigma gauss st hd).2.2.2 := by
      show st.2.2.2 + 1 ≤ st.2.2.2 + (RP.rank (RP.perf mus sigma gauss hd) : ℚ)
      linarith
    have hrs_hi : (RP.step mus sigma gauss st hd).2.2.2 ≤ st.2.2.2 + (m : ℚ) := by
      show st.2.2.2 + (RP.rank (RP.perf mus sigma gauss hd) : ℚ) ≤ st.2.2.2 + (m : ℚ)
      linarith
    refine ⟨by simpa using g1, by simpa using g2, ?_, ?_, ?_⟩
    · simp only [List.foldl_cons, List.length_cons]
      omega
    · simp only [List.foldl_cons, List.length_cons]
      push_cast
      linarith [g4]
    · simp only [List.foldl_cons, List.length_cons]
      push_cast
      linarith [g5]

/-- C8: for every non-empty opponent list, every trial count, sigma and
sequence of random draws, the simulator's probabilities satisfy
`0 ≤ win ≤ top3 ≤ top5 ≤ 1`, the expected rank lies in
`[1, field_size]`, and the field size is the number of opponents plus one. -/
theorem sim_probabilities_coherent (our_mu : ℚ) (entrants : List Entrant)
    (hne : entrants ≠ []) (n : ℤ) (sigma : ℚ) (gauss : ℕ → ℚ → ℚ → ℚ) :
    SimCoherent (simulate_finish_probs our_mu entrants n sigma gauss)
      entrants.length := by
  have hmlen : (our_mu :: entrants.map fun e => e.rating).length
      = entrants.length + 1 := by simp
  have hent : 0 < entrants.length := List.length_pos.mpr hne
  have hcond : ¬ (our_mu :: entrants.map fun e => e.rating).length ≤ 1 := by
    rw [hmlen]
    omega
  have hb : ∀ t : ℕ,
      1 ≤ RP.rank (RP.perf (our_mu :: entrants.map fun e => e.rating) sigma gauss t)
      ∧ RP.rank (RP.perf (our_mu :: entrants.map fun e => e.rating) sigma gauss t)
          ≤ (our_mu :: entrants.map fun e => e.rating).length := by
    intro t
    have := rank_bounds (RP.perf (our_mu :: entrants.map fun e => e.rating) sigma gauss t)
      (by rw [perf_length]; simp)
    rwa [perf_length] at this
  have hN : (200 : ℕ) ≤ (max 200 n).toNat := by
    simp
  have hNQ : (0 : ℚ) < ((max 200 n).toNat : ℚ) := by
    have : (0 : ℕ) < (max 200 n).toNat := by omega
    exact_mod_cast this
  obtain ⟨g1, g2, g3, g4, g5⟩ :=
    foldl_step_bounds (our_mu :: entrants.map fun e => e.rating) sigma gauss
      (our_mu :: entrants.map fun e => e.rating).length hb
      (List.range (max 200 n).toNat) (0, 0, 0, 0) (le_refl 0) (le_refl 0)
  rw [List.length_range] at g3 g4 g5
  simp only [Nat.zero_add] at g3
  unfold simulate_finish_probs
  rw [if_neg hcond]
  refine ⟨?_, ?_, ?_, ?_, ?_, ?_, ?_⟩
  · exact div_nonneg (by positivity) (le_of_lt hNQ)
  · exact (div_le_div_iff_of_pos_right hNQ).mpr (by exact_mod_cast g1)
  · exact (div_le_div_iff_of_pos_right hNQ).mpr (by exact_mod_cast g2)
  · exact (div_le_one hNQ).mpr (by exact_mod_cast g3)
  · refine (one_le_div hNQ).mpr ?_
    have : (0 : ℚ) + ((max 200 n).toNat : ℚ)
        ≤ ((List.range (max 200 n).toNat).foldl
            (RP.step (our_mu :: entrants.map fun e => e.rating) sigma gauss)
            (0, 0, 0, 0)).2.2.2 := g4
    linarith
  · refine (div_le_iff₀ hNQ).mpr ?_
    have h5 : ((List.range (max 200 n).toNat).foldl
          (RP.step (our_mu :: entrants.map fun e => e.rating) sigma gauss)
          (0, 0, 0, 0)).2.2.2
        ≤ 0 + ((max 200 n).toNat : ℚ)
            * ((our_mu :: entrants.map fun e => e.rating).length : ℚ) := g5
    calc ((List.range (max 200 n).toNat).foldl
          (RP.step (our_mu :: entrants.map fun e => e.rating) sigma gauss)
          (0, 0, 0, 0)).2.2.2
        ≤ ((max 200 n).toNat : ℚ)
            * ((our_mu :: entrants.map fun e => e.rating).length : ℚ) := by linarith
      _ = ((our_mu :: entrants.map fun e => e.rating).length : ℚ)
            * ((max 200 n).toNat : ℚ) := by ring
  · simp

/-- C8 (witness): the coherence at a one-opponent field with a deterministic
injected draw source. -/
theorem sim_probabilities_coherent_witness :
    oneRival ≠ []
    ∧ SimCoherent (simulate_finish_probs 80 oneRival 1000 10 fun _ mu _ => mu)
        oneRival.length :=
  ⟨by simp [oneRival],
    sim_probabilities_coherent 80 oneRival (by simp [oneRival]) 1000 10 _⟩

/-- C9: `extract_gait_features` fails with `VideoUnreadable` exactly when the
capture cannot be opened; fails with `InsufficientFrames` (returning no
partial features) when the decoded frame sequence has fewer than 10 frames;
and otherwise returns a `GaitFeatures` value computed from the decoded frames
and the (falsy-defaulted) frame rate. -/
theorem extract_error_contract {Frame : Type} (core : List Frame → ℚ → GaitFeatures)
    (cap : VideoCapture Frame) (mf : ℕ) :
    (cap.opened = false →
      extract_gait_features core cap mf = .error .VideoUnreadable)
    ∧ (cap.opened = true → (cap.frames.take mf).length < 10 →
      extract_gait_features core cap mf = .error .InsufficientFrames)
    ∧ (cap.opened = true → ¬ (cap.frames.take mf).length < 10 →
      extract_gait_features core cap mf
        = .ok (core (cap.frames.take mf) (if cap.fps = 0 then 30 else cap.fps))) := by
  refine ⟨fun h => ?_, fun h h10 => ?_, fun h h10 => ?_⟩
  · unfold extract_gait_features
    rw [h]
    rfl
  · unfold extract_gait_features
    rw [h]
    simp only [Bool.not_true, Bool.false_eq_true, if_false]
    rw [if_pos h10]
  · unfold extract_gait_features
    rw [h]
    simp only [Bool.not_true, Bool.false_eq_true, if_false]
    rw [if_neg h10]

/-- C9 (witness): a 5-frame opened capture fails with `InsufficientFrames`. -/
theorem extract_error_contract_witness :
    shortCap.opened = true
    ∧ (shortCap.frames.take 240).length < 10
    ∧ extract_gait_features (fun _ _ => gfNeutral) shortCap 240
        = .error .InsufficientFrames := by
  refine ⟨rfl, by decide, ?_⟩
  exact (extract_error_contract (fun _ _ => gfNeutral) shortCap 240).2.1 rfl (by decide)

/-- C1 (amended): for fixed signals and qualities `0 ≤ q1 < q2 ≤ 100` (with
the pedigree score in its documented 0..100 range), the realized
confidence-interval width is strictly larger at the lower quality, the
`Total` point estimate is monotone non-decreasing in quality (it varies with
quality through the `C_vid`-scaled `GaitTotal` term, so it is *not*
quality-invariant), and every output other than `C_vid`, `GaitTotal`,
`Total`, the CI endpoints and the calibrated probabilities is unchanged. -/
theorem quality_only_widens_ci (i : ScoreArgs) (q1 q2 : ℚ)
    (hq0 : 0 ≤ q1) (hq12 : q1 < q2) (hq2 : q2 ≤ 100)
    (hped0 : 0 ≤ i.ped_score) (hped1 : i.ped_score ≤ 100) :
    QualityVariation i q1 q2 := by
  have hGTr1 : SV.GaitTotal_raw {i with q := q1} = SV.GaitTotal_raw i := rfl
  have hGTr2 : SV.GaitTotal_raw {i with q := q2} = SV.GaitTotal_raw i := rfl
  have hM1 : SV.M {i with q := q1} = SV.M i := rfl
  have hM2 : SV.M {i with q := q2} = SV.M i := rfl
  have hR1 : SV.R_adj {i with q := q1} = SV.R_adj i := rfl
  have hR2 : SV.R_adj {i with q := q2} = SV.R_adj i := rfl
  have hTot1 : SV.Total {i with q := q1}
      = clamp ((0.65 * SV.GaitTotal_raw i
            + (0.20 * i.ped_score + 0.15 * SV.M i - 0.10 * SV.R_adj i))
          - 7 * (0.65 * SV.GaitTotal_raw i) / 360 * SV.Delta {i with q := q1}) 0 100 := by
    simp only [SV.Total, SV.GaitTotal]
    rw [hGTr1, hM1, hR1, C_vid_eq_Delta]
    congr 1
    ring
  have hTot2 : SV.Total {i with q := q2}
      = clamp ((0.65 * SV.GaitTotal_raw i
            + (0.20 * i.ped_score + 0.15 * SV.M i - 0.10 * SV.R_adj i))
          - 7 * (0.65 * SV.GaitTotal_raw i) / 360 * SV.Delta {i with q := q2}) 0 100 := by
    simp only [SV.Total, SV.GaitTotal]
    rw [hGTr2, hM2, hR2, C_vid_eq_Delta]
    congr 1
    ring
  have hD1v : SV.Delta {i with q := q1} = 18 * (1 - q1 / 100) := by
    simp only [SV.Delta, SV.U, DELTA_MAX]
    rw [clamp_eq_self (by linarith) (by linarith)]
    norm_num
  have hD2v : SV.Delta {i with q := q2} = 18 * (1 - q2 / 100) := by
    simp only [SV.Delta, SV.U, DELTA_MAX]
    rw [clamp_eq_self (by linarith) (by linarith)]
    norm_num
  have hD12 : SV.Delta {i with q := q2} < SV.Delta {i with q := q1} := by
    rw [hD1v, hD2v]
    linarith
  have hk0 : (0 : ℚ) ≤ 0.65 * SV.GaitTotal_raw i := by
    linarith [(GaitTotal_raw_mem i).1]
  have hk65 : 0.65 * SV.GaitTotal_raw i ≤ 65 := by
    linarith [(GaitTotal_raw_mem i).2]
  have hElo : 131 * (0.65 * SV.GaitTotal_raw i) / 91 - 200 / 7
      ≤ 0.65 * SV.GaitTotal_raw i
        + (0.20 * i.ped_score + 0.15 * SV.M i - 0.10 * SV.R_adj i) := by
    linarith [R_adj_GaitTotal_raw_coupling i, hped0, (M_mem i).1]
  have hEhi : 0.65 * SV.GaitTotal_raw i
        + (0.20 * i.ped_score + 0.15 * SV.M i - 0.10 * SV.R_adj i)
      ≤ 35 + 0.65 * SV.GaitTotal_raw i := by
    linarith [hped1, (M_mem i).2, (R_adj_mem i).1]
  have hCIhi1 : SV.CI_hi {i with q := q1}
      = min (SV.Total {i with q := q1} + SV.Delta {i with q := q1}) 100 := by
    unfold SV.CI_hi
    exact clamp_eq_min (by linarith [(Total_mem ({i with q := q1})).1, (Delta_mem ({i with q := q1})).1])
  have hCIhi2 : SV.CI_hi {i with q := q2}
      = min (SV.Total {i with q := q2} + SV.Delta {i with q := q2}) 100 := by
    unfold SV.CI_hi
    exact clamp_eq_min (by linarith [(Total_mem ({i with q := q2})).1, (Delta_mem ({i with q := q2})).1])
  have hCIlo1 : SV.CI_lo {i with q := q1}
      = max (SV.Total {i with q := q1} - SV.Delta {i with q := q1}) 0 := by
    unfold SV.CI_lo
    exact clamp_eq_max (by linarith [(Total_mem ({i with q := q1})).2, (Delta_mem ({i with q := q1})).1])
  have hCIlo2 : SV.CI_lo {i with q := q2}
      = max (SV.Total {i with q := q2} - SV.Delta {i with q := q2}) 0 := by
    unfold SV.CI_lo
    exact clamp_eq_max (by linarith [(Total_mem ({i with q := q2})).2, (Delta_mem ({i with q := q2})).1])
  refine ⟨?_, ?_, rfl, rfl, rfl, rfl, rfl, rfl, rfl, rfl, rfl, rfl, rfl, rfl, rfl, rfl, rfl⟩
  · show SV.CI_hi {i with q := q2} - SV.CI_lo {i with q := q2}
      < SV.CI_hi {i with q := q1} - SV.CI_lo {i with q := q1}
    rw [hCIhi1, hCIhi2, hCIlo1, hCIlo2]
    exact ci_width_strict
      (0.65 * SV.GaitTotal_raw i
        + (0.20 * i.ped_score + 0.15 * SV.M i - 0.10 * SV.R_adj i))
      (0.65 * SV.GaitTotal_raw i)
      (SV.Delta {i with q := q1}) (SV.Delta {i with q := q2})
      (SV.Total {i with q := q1}) (SV.Total {i with q := q2})
      hk0 hk65 (Delta_mem _).1 hD12 (Delta_mem _).2 hElo hEhi hTot1 hTot2
  · show SV.Total {i with q := q1} ≤ SV.Total {i with q := q2}
    rw [hTot1, hTot2]
    apply clamp_mono (by norm_num)
    nlinarith [mul_nonneg hk0 (show (0:ℚ) ≤ SV.Delta {i with q := q1} - SV.Delta {i with q := q2} by linarith)]

/-- C1 (witness): the quality variation at the clean-gait vector `iBase`
between qualities 0 and 100. -/
theorem quality_only_widens_ci_witness :
    (0 : ℚ) ≤ 0 ∧ (0 : ℚ) < 100 ∧ (100 : ℚ) ≤ 100
    ∧ 0 ≤ iBase.ped_score ∧ iBase.ped_score ≤ 100
    ∧ QualityVariation iBase 0 100 := by
  refine ⟨le_refl 0, by norm_num, le_refl 100, by norm_num [iBase], by norm_num [iBase], ?_⟩
  exact quality_only_widens_ci iBase 0 100 (le_refl 0) (by norm_num) (le_refl 100)
    (by norm_num [iBase]) (by norm_num [iBase])

/-- C1 (counterexample): at the clean-gait vector the total score returned
for quality 0 is 57.98571875 while for quality 100 it is 78.594375 — the
point estimate does change with quality, refuting the claim that only the
`GaitTotal` magnitude and the CI width depend on it. -/
theorem total_depends_on_quality :
    iBase.q = 0
    ∧ (score_v2 iBase).Total = 57.98571875
    ∧ (score_v2 {iBase with q := 100}).Total = 78.594375
    ∧ (57.98571875 : ℚ) ≠ 78.594375 := by
  have hS : SV.S iBase = 100 := by
    norm_num [SV.S, iBase, sat, clamp, S0, S1]
  have hW : SV.W iBase = 100 := by
    norm_num [SV.W, iBase, sat, rev, clamp, W0, W1]
  have hG : SV.G iBase = 94 := by
    simp only [SV.G, hS, hW]
    norm_num [SV.P, SV.A, SV.V, iBase, sat, rev, clamp, P0, P1, A0, A1, V0, V1]
  have hR : SV.R_adj iBase = 9.75 := by
    norm_num [SV.R_adj, SV.R_gait, SV.rp, SV.rw, SV.ra, SV.rs, SV.StressRisk', SV.K_ai,
      SV.Stress, SV.x, SV.sw, SV.br, SV.headbob_suspect, SV.hind_asym_suspect, iBase,
      sat, rev, clamp, PR0, PR1, SR0, SR1, WR0, WR1, AR0, AR1]
  have hP : SV.PaddockState' iBase = 50 := by
    norm_num [SV.PaddockState', SV.PaddockState, SV.K_ai, SV.t, SV.x, SV.co, SV.f,
      iBase, clamp]
  have hGadj : SV.G_adj iBase = 94 := by
    simp only [SV.G_adj, hG, hP]
    norm_num [clamp]
  have hGTraw : SV.GaitTotal_raw iBase = 90.5875 := by
    simp only [SV.GaitTotal_raw, hGadj, hR]
    norm_num [clamp]
  have hM : SV.M iBase = 71.25 := by
    simp only [SV.M, hS, hW]
    norm_num [iBase, clamp]
  have hCv0 : SV.C_vid iBase = 0.65 := by
    norm_num [SV.C_vid, iBase, clamp]
  have hCv1 : SV.C_vid {iBase with q := 100} = 1 := by
    norm_num [SV.C_vid, iBase, clamp]
  have hGTraw1 : SV.GaitTotal_raw {iBase with q := 100} = 90.5875 := hGTraw
  have hM1 : SV.M {iBase with q := 100} = 71.25 := hM
  have hR1 : SV.R_adj {iBase with q := 100} = 9.75 := hR
  refine ⟨rfl, ?_, ?_, by norm_num⟩
  · show SV.Total iBase = _
    simp only [SV.Total, SV.GaitTotal, hGTraw, hCv0, hM, hR]
    norm_num [iBase, clamp]
  · show SV.Total {iBase with q := 100} = _
    simp only [SV.Total, SV.GaitTotal, hGTraw1, hCv1, hM1, hR1]
    norm_num [iBase, clamp]

end GoPaddock
